import Mathlib

/-!
Verification development for the Connect RPC chat controller
(`src/api/controllers/chat-v2.ts`).

The controller is embedded shallowly: JavaScript strings become Lean
`String`s (manipulated through their `List Char` data), `undefined`
becomes `none`, thrown exceptions become `Except` errors, and the two
RPC collaborator methods (`chatText` / `chat`) become function
parameters whose invocation count is returned alongside the result.
`Buffer.from(s, 'base64')` is modelled by a forgiving base64 decoder
(accepting both the standard and the URL-safe alphabet, skipping
characters outside the alphabet, stopping at `=` padding),
`Buffer.prototype.toString()` by a UTF-8 decoder that substitutes
U+FFFD for invalid sequences, and `JSON.parse` by a recursive-descent
JSON parser over the decoded characters.
-/

namespace ChatV2

/-! ### JavaScript string primitives -/

/-- The whitespace class used by JavaScript `\s` and `String.prototype.trim`:
TAB..CR, SPACE, NBSP, OGHAM SPACE, U+2000..U+200A, LINE/PARAGRAPH
SEPARATOR, NARROW NBSP, MEDIUM MATHEMATICAL SPACE, IDEOGRAPHIC SPACE, BOM. -/
def jsIsSpace (c : Char) : Bool :=
  let n := c.toNat
  n = 0x20 ∨ (0x9 ≤ n ∧ n ≤ 0xD) ∨ n = 0xA0 ∨ n = 0x1680 ∨
  (0x2000 ≤ n ∧ n ≤ 0x200A) ∨ n = 0x2028 ∨ n = 0x2029 ∨ n = 0x202F ∨
  n = 0x205F ∨ n = 0x3000 ∨ n = 0xFEFF

/-- `String.prototype.trim` on the character list: drop whitespace at both ends. -/
def jsTrimL (l : List Char) : List Char :=
  ((l.dropWhile jsIsSpace).reverse.dropWhile jsIsSpace).reverse

/-- `String.prototype.trim`. -/
def jsTrim (s : String) : String := String.mk (jsTrimL s.data)

/-- ASCII lower-casing, the canonicalisation used by the `/i` regex flag on
ASCII patterns such as `/^Bearer\s+/i`. -/
def lowAscii (c : Char) : Char :=
  if 'A' ≤ c ∧ c ≤ 'Z' then Char.ofNat (c.toNat + 32) else c

/-- `tokenHeader.replace(/^Bearer\s+/i, '')`: if the list starts with a
case-insensitive `Bearer` followed by at least one whitespace character,
remove the six letters and the maximal whitespace run; otherwise leave the
list unchanged (the regex is anchored and non-global, so at most one
replacement happens). -/
def stripBearerL (l : List Char) : List Char :=
  match l with
  | c1 :: c2 :: c3 :: c4 :: c5 :: c6 :: c7 :: rest =>
    if lowAscii c1 = 'b' ∧ lowAscii c2 = 'e' ∧ lowAscii c3 = 'a' ∧
       lowAscii c4 = 'r' ∧ lowAscii c5 = 'e' ∧ lowAscii c6 = 'r' ∧
       jsIsSpace c7 then
      (c7 :: rest).dropWhile jsIsSpace
    else l
  | _ => l

/-- `tokenHeader.replace(/^Bearer\s+/i, '')` on strings. -/
def stripBearer (s : String) : String := String.mk (stripBearerL s.data)

/-- Is `p` a prefix of the second list? (Boolean, for `String.prototype.startsWith`
and the substring search of `String.prototype.includes`.) -/
def isPrefixL : List Char → List Char → Bool
  | [], _ => true
  | _ :: _, [] => false
  | a :: as, b :: bs => a = b && isPrefixL as bs

/-- Substring search: does `needle` occur inside the second list? -/
def hasSubstrL (needle : List Char) : List Char → Bool
  | [] => isPrefixL needle []
  | c :: rest => isPrefixL needle (c :: rest) || hasSubstrL needle rest

/-- `String.prototype.includes`. -/
def includes (s sub : String) : Bool := hasSubstrL sub.data s.data

/-- `token.split('.')`: split on every dot, keeping empty pieces, so the
result for the empty string is `[""]` exactly as in JavaScript. -/
def splitOnDot : List Char → List (List Char)
  | [] => [[]]
  | '.' :: rest => [] :: splitOnDot rest
  | c :: rest =>
    match splitOnDot rest with
    | s :: ss => (c :: s) :: ss
    | [] => [[c]]

/-- `token.startsWith('eyJ')`. -/
def startsWithEyJ (l : List Char) : Bool :=
  match l with
  | 'e' :: 'y' :: 'J' :: _ => true
  | _ => false

/-! ### `Buffer.from(s, 'base64')` — the forgiving Node base64 decoder -/

/-- Value of one base64 character; accepts the standard and the URL-safe
alphabet (`+`/`-` are 62, `/`/`_` are 63). `none` for characters outside
the alphabet. -/
def b64Val (c : Char) : Option Nat :=
  if 'A' ≤ c ∧ c ≤ 'Z' then some (c.toNat - 65)
  else if 'a' ≤ c ∧ c ≤ 'z' then some (c.toNat - 97 + 26)
  else if '0' ≤ c ∧ c ≤ '9' then some (c.toNat - 48 + 52)
  else if c = '+' ∨ c = '-' then some 62
  else if c = '/' ∨ c = '_' then some 63
  else none

/-- Collect the 6-bit values of the payload: characters outside the alphabet
(whitespace included) are skipped, and a `=` padding character terminates
the decode. -/
def b64Filter : List Char → List Nat
  | [] => []
  | '=' :: _ => []
  | c :: rest =>
    match b64Val c with
    | some v => v :: b64Filter rest
    | none => b64Filter rest

/-- Regroup 6-bit values into bytes: each full group of four yields three
bytes, a trailing group of three yields two, of two yields one, and a
single leftover value is dropped. -/
def b64Group : List Nat → List Nat
  | a :: b :: c :: d :: rest =>
    (a * 4 + b / 16) :: ((b % 16) * 16 + c / 4) :: ((c % 4) * 64 + d) :: b64Group rest
  | [a, b, c] => [a * 4 + b / 16, (b % 16) * 16 + c / 4]
  | [a, b] => [a * 4 + b / 16]
  | _ => []

/-- `Buffer.from(s, 'base64')`: the decoded bytes. -/
def base64Decode (s : List Char) : List Nat := b64Group (b64Filter s)

/-! ### `Buffer.prototype.toString()` — UTF-8 decoding with replacement -/

/-- The replacement character U+FFFD. -/
def repl : Char := Char.ofNat 0xFFFD

/-- Is `b` a UTF-8 continuation byte (`10xxxxxx`)? -/
def isCont (b : Nat) : Bool := 0x80 ≤ b ∧ b ≤ 0xBF

/-- UTF-8 decoding of a byte list; malformed sequences (stray continuation
bytes, overlong encodings, surrogate code points, out-of-range leads)
decode to U+FFFD, as `Buffer.prototype.toString()` does. Structural
recursion on a fuel parameter (every step consumes at least one byte, so
`length + 1` fuel always suffices). -/
def utf8DecodeF : Nat → List Nat → List Char
  | 0, _ => []
  | _, [] => []
  | Nat.succ fuel, b :: rest =>
    if b < 0x80 then Char.ofNat b :: utf8DecodeF fuel rest
    else if 0xC2 ≤ b ∧ b ≤ 0xDF then
      match rest with
      | b2 :: rest2 =>
        if isCont b2 then Char.ofNat ((b - 0xC0) * 64 + (b2 - 0x80)) :: utf8DecodeF fuel rest2
        else repl :: utf8DecodeF fuel (b2 :: rest2)
      | [] => [repl]
    else if 0xE0 ≤ b ∧ b ≤ 0xEF then
      match rest with
      | b2 :: b3 :: rest2 =>
        if isCont b2 ∧ isCont b3 ∧ (b = 0xE0 → 0xA0 ≤ b2) ∧ (b = 0xED → b2 ≤ 0x9F) then
          Char.ofNat ((b - 0xE0) * 4096 + (b2 - 0x80) * 64 + (b3 - 0x80)) :: utf8DecodeF fuel rest2
        else repl :: utf8DecodeF fuel (b2 :: b3 :: rest2)
      | _ => [repl]
    else if 0xF0 ≤ b ∧ b ≤ 0xF4 then
      match rest with
      | b2 :: b3 :: b4 :: rest2 =>
        if isCont b2 ∧ isCont b3 ∧ isCont b4 ∧
           (b = 0xF0 → 0x90 ≤ b2) ∧ (b = 0xF4 → b2 ≤ 0x8F) then
          Char.ofNat ((b - 0xF0) * 262144 + (b2 - 0x80) * 4096 + (b3 - 0x80) * 64 + (b4 - 0x80))
            :: utf8DecodeF fuel rest2
        else repl :: utf8DecodeF fuel (b2 :: b3 :: b4 :: rest2)
      | _ => [repl]
    else repl :: utf8DecodeF fuel rest

/-- `Buffer.prototype.toString()`: UTF-8 decoding of the whole byte list. -/
def utf8Decode (l : List Nat) : List Char := utf8DecodeF (l.length + 1) l

/-! ### `JSON.parse` — JSON values and a recursive-descent parser -/

/-- A parsed JSON value. Numbers keep their source characters: no claim
inspects a numeric value, only string fields are compared. -/
inductive Json where
  | null
  | bool (b : Bool)
  | num (raw : List Char)
  | str (s : List Char)
  | arr (elems : List Json)
  | obj (fields : List (List Char × Json))

instance : Inhabited Json := ⟨Json.null⟩

/-- JSON insignificant whitespace. -/
def jsonWs (c : Char) : Bool := c = ' ' ∨ c = '\t' ∨ c = '\n' ∨ c = '\r'

/-- Skip insignificant whitespace. -/
def skipWs (l : List Char) : List Char := l.dropWhile jsonWs

/-- The single-character escapes of JSON strings. -/
def escChar (c : Char) : Option Char :=
  if c = '"' then some '"'
  else if c = '\\' then some '\\'
  else if c = '/' then some '/'
  else if c = 'b' then some '\x08'
  else if c = 'f' then some '\x0c'
  else if c = 'n' then some '\n'
  else if c = 'r' then some '\r'
  else if c = 't' then some '\t'
  else none

/-- Value of one hexadecimal digit. -/
def hexVal (c : Char) : Option Nat :=
  if '0' ≤ c ∧ c ≤ '9' then some (c.toNat - 48)
  else if 'a' ≤ c ∧ c ≤ 'f' then some (c.toNat - 97 + 10)
  else if 'A' ≤ c ∧ c ≤ 'F' then some (c.toNat - 65 + 10)
  else none

/-- Value of a `\uXXXX` escape. -/
def hex4 (a b c d : Char) : Option Nat :=
  match hexVal a, hexVal b, hexVal c, hexVal d with
  | some x, some y, some z, some w => some (x * 4096 + y * 256 + z * 16 + w)
  | _, _, _, _ => none

/-- Body of a JSON string after the opening quote: returns the decoded
characters and the input following the closing quote. Surrogate pairs in
`\u` escapes combine into one scalar; a lone surrogate (unrepresentable as
a Lean `Char`) becomes U+FFFD. -/
def parseStrF : Nat → List Char → Option (List Char × List Char)
  | 0, _ => none
  | _, [] => none
  | _, '"' :: rest => some ([], rest)
  | Nat.succ fuel, '\\' :: 'u' :: a :: b :: c :: d :: rest3 =>
    match hex4 a b c d with
    | none => none
    | some v =>
      if 0xD800 ≤ v ∧ v ≤ 0xDBFF then
        match rest3 with
        | '\\' :: 'u' :: e :: f :: g :: h :: rest4 =>
          match hex4 e f g h with
          | some w =>
            if 0xDC00 ≤ w ∧ w ≤ 0xDFFF then
              (parseStrF fuel rest4).map fun p =>
                (Char.ofNat (0x10000 + (v - 0xD800) * 1024 + (w - 0xDC00)) :: p.1, p.2)
            else (parseStrF fuel ('\\' :: 'u' :: e :: f :: g :: h :: rest4)).map
              fun p => (repl :: p.1, p.2)
          | none => (parseStrF fuel ('\\' :: 'u' :: e :: f :: g :: h :: rest4)).map
              fun p => (repl :: p.1, p.2)
        | r => (parseStrF fuel r).map fun p => (repl :: p.1, p.2)
      else if 0xDC00 ≤ v ∧ v ≤ 0xDFFF then
        (parseStrF fuel rest3).map fun p => (repl :: p.1, p.2)
      else (parseStrF fuel rest3).map fun p => (Char.ofNat v :: p.1, p.2)
  | Nat.succ fuel, '\\' :: e :: rest2 =>
    match escChar e with
    | some c => (parseStrF fuel rest2).map fun p => (c :: p.1, p.2)
    | none => none
  | Nat.succ fuel, c :: rest =>
    if c.toNat < 0x20 then none
    else (parseStrF fuel rest).map fun p => (c :: p.1, p.2)

/-- Body of a JSON string after the opening quote (every step consumes at
least one character, so `length + 1` fuel always suffices). -/
def parseStringBody (l : List Char) : Option (List Char × List Char) :=
  parseStrF (l.length + 1) l

/-- Is `c` an ASCII decimal digit? -/
def isDigitC (c : Char) : Bool := '0' ≤ c ∧ c ≤ '9'

/-- The optional fraction part `.[0-9]+` of a JSON number. -/
def parseFrac (l : List Char) : Option (List Char × List Char) :=
  match l with
  | '.' :: rest =>
    let ds := rest.takeWhile isDigitC
    if ds = [] then none else some ('.' :: ds, rest.dropWhile isDigitC)
  | _ => some ([], l)

/-- The optional exponent part `[eE][+-]?[0-9]+` of a JSON number. -/
def parseExp (l : List Char) : Option (List Char × List Char) :=
  match l with
  | e :: rest =>
    if e = 'e' ∨ e = 'E' then
      let (sgn, rest2) :=
        match rest with
        | '+' :: r => (['+'], r)
        | '-' :: r => (['-'], r)
        | r => ([], r)
      let ds := rest2.takeWhile isDigitC
      if ds = [] then none else some (e :: (sgn ++ ds), rest2.dropWhile isDigitC)
    else some ([], e :: rest)
  | [] => some ([], [])

/-- A JSON number: `-?(0|[1-9][0-9]*)` followed by optional fraction and
exponent; returns the raw characters consumed. -/
def parseNumber (l : List Char) : Option (List Char × List Char) :=
  let (sgn, l1) :=
    match l with
    | '-' :: r => (['-'], r)
    | r => ([], r)
  match l1 with
  | '0' :: r =>
    match parseFrac r with
    | none => none
    | some (f, r2) =>
      match parseExp r2 with
      | none => none
      | some (e, r3) => some (sgn ++ '0' :: (f ++ e), r3)
  | c :: r =>
    if isDigitC c ∧ c ≠ '0' then
      let ds := r.takeWhile isDigitC
      let r1 := r.dropWhile isDigitC
      match parseFrac r1 with
      | none => none
      | some (f, r2) =>
        match parseExp r2 with
        | none => none
        | some (e, r3) => some (sgn ++ c :: (ds ++ f ++ e), r3)
    else none
  | [] => none

/-- The three recursion modes of the JSON parser: one value, the members
of a non-empty object after its opening brace, the elements of a non-empty
array after its opening bracket. -/
inductive PMode where
  | val
  | members
  | elems

/-- Fuelled recursive-descent JSON parser; returns the parsed value and the
remaining input. A single function over a mode so the recursion is
structural on the fuel and kernel-reducible. -/
def parseJ : Nat → PMode → List Char → Option (Json × List Char)
  | 0, _, _ => none
  | Nat.succ fuel, .val, input =>
    match skipWs input with
    | '{' :: rest =>
      match skipWs rest with
      | '}' :: r2 => some (.obj [], r2)
      | r2 => parseJ fuel .members r2
    | '[' :: rest =>
      match skipWs rest with
      | ']' :: r2 => some (.arr [], r2)
      | r2 => parseJ fuel .elems r2
    | '"' :: rest => (parseStringBody rest).map fun p => (.str p.1, p.2)
    | 't' :: 'r' :: 'u' :: 'e' :: rest => some (.bool true, rest)
    | 'f' :: 'a' :: 'l' :: 's' :: 'e' :: rest => some (.bool false, rest)
    | 'n' :: 'u' :: 'l' :: 'l' :: rest => some (.null, rest)
    | l => (parseNumber l).map fun p => (.num p.1, p.2)
  | Nat.succ fuel, .members, input =>
    match skipWs input with
    | '"' :: rest =>
      match parseStringBody rest with
      | none => none
      | some (key, r1) =>
        match skipWs r1 with
        | ':' :: r2 =>
          match parseJ fuel .val r2 with
          | none => none
          | some (v, r3) =>
            match skipWs r3 with
            | ',' :: r4 =>
              match parseJ fuel .members r4 with
              | some (.obj fs, r5) => some (.obj ((key, v) :: fs), r5)
              | _ => none
            | '}' :: r4 => some (.obj [(key, v)], r4)
            | _ => none
        | _ => none
    | _ => none
  | Nat.succ fuel, .elems, input =>
    match parseJ fuel .val input with
    | none => none
    | some (v, r1) =>
      match skipWs r1 with
      | ',' :: r2 =>
        match parseJ fuel .elems r2 with
        | some (.arr vs, r3) => some (.arr (v :: vs), r3)
        | _ => none
      | ']' :: r2 => some (.arr [v], r2)
      | _ => none

/-- `JSON.parse`: parse one value and require only whitespace after it;
`none` models a thrown `SyntaxError`. Two fuel units per input character
always suffice (each unit of nesting consumes at least one character). -/
def jsonParse (s : List Char) : Option Json :=
  match parseJ (2 * s.length + 4) .val s with
  | some (v, rest) => if skipWs rest = [] then some v else none
  | none => none

/-! ### JavaScript object access on parsed JSON values -/

/-- Field lookup with JavaScript `JSON.parse` duplicate-key semantics: the
last occurrence of a key wins. -/
def lookupLast (fs : List (List Char × Json)) (k : List Char) : Option Json :=
  match fs with
  | [] => none
  | (k2, v) :: rest =>
    match lookupLast rest k with
    | some r => some r
    | none => if k2 = k then some v else none

/-- `payload.k`: property access on the result of `JSON.parse`. Accessing a
property of `null` throws a `TypeError` (modelled as `.error ()`); on any
non-object value the access yields `undefined` (`none`); on an object it is
a key lookup. -/
def jsGetField (j : Json) (k : List Char) : Except Unit (Option Json) :=
  match j with
  | .null => .error ()
  | .obj fs => .ok (lookupLast fs k)
  | _ => .ok none

/-- Is this access result the given string value? (JavaScript strict
equality `payload.k === 'w'` with a string literal on the right.) -/
def isStrVal (v : Option Json) (w : List Char) : Bool :=
  match v with
  | some (.str s) => s = w
  | _ => false

/-! ### The controller (`chat-v2.ts`) -/

/-- The error taxonomy observable at the controller boundary.
`missingCredential` and `invalidCredentialFormat` are the two
`APIException`s of `extractAuthToken`, `unsupportedCredentialType` the
gate failure of the two entry points, and `typeError` the JavaScript
`TypeError` raised when the message list is empty (so
`messages[messages.length - 1]` is `undefined` and `.content` throws). -/
inductive ApiError where
  | missingCredential
  | invalidCredentialFormat
  | unsupportedCredentialType
  | typeError
  deriving DecidableEq

/-- The inbound header slots the controller reads. `none` models an absent
header; a present header carries its (possibly empty) string value. -/
structure Headers where
  authorization : Option String
  xGoogApiKey : Option String

/-- JavaScript truthiness of an optional header string: `undefined` and
the empty string are falsy. -/
def truthy : Option String → Bool
  | none => false
  | some s => s ≠ ""

/-- The `tokenHeader` variable of `extractAuthToken`: the `authorization`
header, replaced by the synthesized `Bearer <apiKey>` when it is falsy and
`x-goog-api-key` is truthy. -/
def tokenHeaderOf (h : Headers) : Option String :=
  if truthy h.authorization then h.authorization
  else if truthy h.xGoogApiKey then some ("Bearer " ++ h.xGoogApiKey.getD "")
  else h.authorization

/-- `extractAuthToken`: throw `missingCredential` if the token header is
falsy; normalize by stripping one leading case-insensitive `Bearer` +
whitespace and trimming; throw `invalidCredentialFormat` if the normalized
token is empty. -/
def extractAuthToken (h : Headers) : Except ApiError String :=
  if truthy (tokenHeaderOf h) = false then .error .missingCredential
  else if jsTrim (stripBearer ((tokenHeaderOf h).getD "")) = "" then
    .error .invalidCredentialFormat
  else .ok (jsTrim (stripBearer ((tokenHeaderOf h).getD "")))

/-- The two classification results of `detectTokenType`. -/
inductive TokenType where
  | jwt
  | refresh
  deriving DecidableEq

/-- Decode one credential segment as the controller does:
`JSON.parse(Buffer.from(seg, 'base64').toString())`, `none` when
`JSON.parse` throws. -/
def decodeSegmentJson (seg : List Char) : Option Json :=
  jsonParse (utf8Decode (base64Decode seg))

/-- `detectTokenType`: `jwt` when the token starts with `eyJ`, has exactly
three dot-separated segments, the middle segment decodes and parses, and
`payload.app_id === 'kimi' && payload.typ === 'access'`; `refresh`
otherwise (every decode/parse/access failure is caught). -/
def detectTokenType (token : String) : TokenType :=
  if startsWithEyJ token.data ∧ (splitOnDot token.data).length = 3 then
    match (splitOnDot token.data)[1]? with
    | none => .refresh
    | some mid =>
      match decodeSegmentJson mid with
      | none => .refresh
      | some payload =>
        match jsGetField payload ("app_id".data), jsGetField payload ("typ".data) with
        | .ok a, .ok t =>
          if isStrVal a ("kimi".data) ∧ isStrVal t ("access".data) then .jwt else .refresh
        | _, _ => .refresh
  else .refresh

/-- The shared `try` body of the three claims extractors:
`JSON.parse(Buffer.from(token.split('.')[1], 'base64').toString())`.
`token.split('.')[1]` being `undefined` makes `Buffer.from` throw, which
the extractors catch. -/
def jwtMiddlePayload (token : String) : Option Json :=
  match (splitOnDot token.data)[1]? with
  | none => none
  | some mid => decodeSegmentJson mid

/-- `payload.k` under the extractors' `catch (e) { return undefined }`:
a decode failure or a `TypeError` on the access yields `undefined`. -/
def payloadField (p : Option Json) (k : List Char) : Option Json :=
  match p with
  | none => none
  | some j =>
    match jsGetField j k with
    | .ok v => v
    | .error _ => none

/-- `extractDeviceIdFromJWT`: best-effort `payload.device_id`. -/
def extractDeviceIdFromJWT (token : String) : Option Json :=
  payloadField (jwtMiddlePayload token) ("device_id".data)

/-- `extractSessionIdFromJWT`: best-effort `payload.ssid`. -/
def extractSessionIdFromJWT (token : String) : Option Json :=
  payloadField (jwtMiddlePayload token) ("ssid".data)

/-- `extractUserIdFromJWT`: best-effort `payload.sub`. -/
def extractUserIdFromJWT (token : String) : Option Json :=
  payloadField (jwtMiddlePayload token) ("sub".data)

/-- The scenario/thinking pair returned by `resolveScenario`. -/
structure ScenarioSel where
  scenario : String
  thinking : Bool
  deriving DecidableEq

/-- `resolveScenario`: `thinking` iff the model name contains `thinking`;
the scenario by first-match priority `k2.5`, `search`, `research`, `k1`,
default `SCENARIO_K2`. -/
def resolveScenario (model : String) : ScenarioSel :=
  if includes model "k2.5" then ⟨"SCENARIO_K2", includes model "thinking"⟩
  else if includes model "search" then ⟨"SCENARIO_SEARCH", includes model "thinking"⟩
  else if includes model "research" then ⟨"SCENARIO_RESEARCH", includes model "thinking"⟩
  else if includes model "k1" then ⟨"SCENARIO_K1", includes model "thinking"⟩
  else ⟨"SCENARIO_K2", includes model "thinking"⟩

/-- One part of a list-shaped message content. JavaScript records with the
`type` and `text` properties optional; any non-record list item behaves as
both properties `undefined`. -/
structure ContentPart where
  type : Option String
  text : Option String

/-- The `content` field of an inbound message: a plain string, a list of
typed parts, or any other JavaScript shape. -/
inductive MsgContent where
  | str (s : String)
  | parts (l : List ContentPart)
  | other

/-- An inbound message; the controller reads only `content`. -/
structure Message where
  content : MsgContent

/-- The text-extraction rule both entry points apply to the last message:
a string content verbatim; a list content filtered to parts with
`type === 'text'`, mapped to their `text` (`undefined` joins as the empty
string, as in `Array.prototype.flatten`) and joined with newlines; anything
else the empty string. -/
def extractMessageText (c : MsgContent) : String :=
  match c with
  | .str s => s
  | .parts l =>
    String.intercalate "\n" ((l.filter fun p => p.type = some "text").map fun p => p.text.getD "")
  | .other => ""

/-- `messages[messages.length - 1]` followed by the content extraction:
an empty list makes `lastMessage.content` throw a `TypeError`. -/
def extractLastText (messages : List Message) : Except ApiError String :=
  match messages.getLast? with
  | none => .error .typeError
  | some lastMessage => .ok (extractMessageText lastMessage.content)

/-- The `ConnectConfig` built per request from the credential and its
best-effort claims. -/
structure ConnectConfig where
  baseUrl : String
  authToken : String
  deviceId : Option Json
  sessionId : Option Json
  userId : Option Json

/-- Build the per-request `ConnectConfig` exactly as both entry points do. -/
def buildConfig (authToken : String) : ConnectConfig :=
  { baseUrl := "https://www.kimi.com"
    authToken := authToken
    deviceId := extractDeviceIdFromJWT authToken
    sessionId := extractSessionIdFromJWT authToken
    userId := extractUserIdFromJWT authToken }

/-- Result of the collaborator's single-shot `chatText` call. -/
structure ChatTextResult where
  chatId : Option String
  text : String

/-- The usage triple of a completion. -/
structure Usage where
  prompt_tokens : Nat
  completion_tokens : Nat
  total_tokens : Nat
  deriving DecidableEq

/-- The single choice of a non-streaming completion. -/
structure Choice where
  index : Nat
  role : String
  content : String
  finish_reason : String
  deriving DecidableEq

/-- The non-streaming completion payload (ids and timestamps are supplied
as parameters in place of `util.uuid()` / `util.unixTimestamp()`). -/
structure Completion where
  id : String
  model : String
  object : String
  choices : List Choice
  usage : Usage
  created : Nat
  deriving DecidableEq

/-- `createCompletionV2`. The collaborator (`new ConnectRPCClient(config)`
followed by `client.chatText(content, {scenario, thinking})`) is the
function parameter `chatText`; the second component of the result counts
how many times it is invoked. `freshId` stands for `util.uuid()` and `now`
for `util.unixTimestamp()`. -/
def createCompletionV2 (model : String) (messages : List Message) (authToken : String)
    (chatText : ConnectConfig → String → String → Bool → ChatTextResult)
    (freshId : String) (now : Nat) : Except ApiError Completion × Nat :=
  let tokenType := detectTokenType authToken
  if tokenType ≠ .jwt then (.error .unsupportedCredentialType, 0)
  else
    match extractLastText messages with
    | .error e => (.error e, 0)
    | .ok messageContent =>
      let config := buildConfig authToken
      let sel := resolveScenario model
      let response := chatText config messageContent sel.scenario sel.thinking
      (.ok
        { id := match response.chatId with
            | some s => if s = "" then freshId else s
            | none => freshId
          model := model
          object := "chat.completion"
          choices := [{ index := 0, role := "assistant", content := response.text,
                        finish_reason := "stop" }]
          usage := { prompt_tokens := messageContent.length
                     completion_tokens := response.text.length
                     total_tokens := messageContent.length + response.text.length }
          created := now }, 1)

/-- One event of the collaborator's streaming `chat` call:
`msg.block?.text?.content` flattened to an optional string, and the
`done` marker. -/
structure ConnectMsg where
  content : Option String
  done : Bool

/-- What the streaming path writes to the `PassThrough`, abstracted from
the JSON envelope: a delta chunk with its text, the terminal chunk (empty
delta, finish reason `stop`), the literal `data: [DONE]\n\n` sentinel, a
normal `stream.end()`, or a `stream.destroy(error)`. -/
inductive Frame where
  | contentChunk (text : String)
  | stopChunk
  | doneSentinel
  | endOfStream
  | destroyed
  deriving DecidableEq

/-- The chunk a single event contributes: one delta frame when
`msg.block?.text?.content` is truthy (a non-empty string), nothing
otherwise. -/
def contentFrame (m : ConnectMsg) : List Frame :=
  match m.content with
  | some s => if s = "" then [] else [.contentChunk s]
  | none => []

/-- The `for (const msg of connectMessages)` loop: emit the delta frame of
each event; on an event marked done, emit the terminal chunk and the
sentinel, break out of the loop, and `stream.end()`. Returns the emitted
frames and the number of events consumed from the sequence. -/
def processEvents : List ConnectMsg → List Frame × Nat
  | [] => ([.endOfStream], 0)
  | m :: rest =>
    if m.done then (contentFrame m ++ [.stopChunk, .doneSentinel, .endOfStream], 1)
    else
      let r := processEvents rest
      (contentFrame m ++ r.1, r.2 + 1)

/-- `createCompletionStreamV2`. The collaborator call
`client.chat(content, {scenario, thinking})` is the parameter `chat`,
returning either the event sequence or a thrown error; the second
component counts its invocations. The synchronous part (credential gate,
last-message access) rejects before the stream exists; afterwards the
background task fills the returned stream with the frames of
`processEvents`, or destroys it when `chat` throws. -/
def createCompletionStreamV2 (model : String) (messages : List Message) (authToken : String)
    (chat : ConnectConfig → String → String → Bool → Except String (List ConnectMsg)) :
    Except ApiError (List Frame) × Nat :=
  let tokenType := detectTokenType authToken
  if tokenType ≠ .jwt then (.error .unsupportedCredentialType, 0)
  else
    match extractLastText messages with
    | .error e => (.error e, 0)
    | .ok messageContent =>
      let config := buildConfig authToken
      let sel := resolveScenario model
      match chat config messageContent sel.scenario sel.thinking with
      | .error _ => (.ok [.destroyed], 1)
      | .ok connectMessages => (.ok (processEvents connectMessages).1, 1)

/-! ### Specification-side definitions, taken from the claims' wording -/

/-- The classification condition exactly as the specification words it:
three dot-separated segments whose middle segment base64-decodes to a JSON
object whose `app_id` field is `"kimi"` and whose `typ` field is
`"access"`. (Note: no condition on how the credential starts.) -/
def claimStructuredB (token : String) : Bool :=
  decide ((splitOnDot token.data).length = 3) &&
    (match (splitOnDot token.data)[1]? with
     | none => false
     | some mid =>
       match decodeSegmentJson mid with
       | some (.obj fs) =>
         isStrVal (lookupLast fs ("app_id".data)) ("kimi".data) &&
         isStrVal (lookupLast fs ("typ".data)) ("access".data)
       | _ => false)

/-- The header value `extractAuthToken` normalizes when at least one header
is truthy: `authorization` itself, or the synthesized `Bearer <apiKey>`. -/
def effectiveHeader (h : Headers) : String :=
  if truthy h.authorization then h.authorization.getD ""
  else "Bearer " ++ h.xGoogApiKey.getD ""

/-- The normalized token: the effective header with one leading
case-insensitive `Bearer` + whitespace stripped, then trimmed. -/
def normalizedToken (h : Headers) : String := jsTrim (stripBearer (effectiveHeader h))

/-! ### Small facts about the embedded helpers -/

theorem dropWhile_dropWhile (p : Char → Bool) (l : List Char) :
    (l.dropWhile p).dropWhile p = l.dropWhile p := by
  induction l with
  | nil => rfl
  | cons a l ih =>
    by_cases h : p a
    · simpa [List.dropWhile_cons, h] using ih
    · simp [List.dropWhile_cons, h]

theorem bearer_append_ne_empty (k : String) : ("Bearer " ++ k) ≠ "" := by
  intro h
  have h0 : ("Bearer " ++ k).length = 0 := by rw [h]; rfl
  rw [String.length_append] at h0
  have h7 : "Bearer ".length = 7 := by decide
  omega

theorem stripBearer_bearer_append (k : String) :
    jsTrim (stripBearer ("Bearer " ++ k)) = jsTrim k := by
  have hdata : ("Bearer " ++ k).data
      = 'B' :: 'e' :: 'a' :: 'r' :: 'e' :: 'r' :: ' ' :: k.data := by
    rw [String.data_append]; rfl
  have hstrip : stripBearerL (("Bearer " ++ k).data) = k.data.dropWhile jsIsSpace := by
    rw [hdata]
    simp only [stripBearerL]
    rw [if_pos (by decide)]
    rw [List.dropWhile_cons, if_pos (by decide)]
  unfold jsTrim stripBearer jsTrimL
  rw [hstrip, dropWhile_dropWhile]

/-! ### The claims -/

/-- C2: for every model name, message list and credential that does not
classify as structured, both `createCompletionV2` and
`createCompletionStreamV2` fail with `UnsupportedCredentialType` and the
RPC collaborator is invoked zero times. -/
theorem opaque_credential_rejected_before_rpc (model : String) (messages : List Message)
    (token : String) (chatText : ConnectConfig → String → String → Bool → ChatTextResult)
    (chat : ConnectConfig → String → String → Bool → Except String (List ConnectMsg))
    (freshId : String) (now : Nat) (h : detectTokenType token ≠ .jwt) :
    createCompletionV2 model messages token chatText freshId now
      = (.error .unsupportedCredentialType, 0)
    ∧ createCompletionStreamV2 model messages token chat
      = (.error .unsupportedCredentialType, 0) := by
  constructor
  · unfold createCompletionV2
    rw [if_pos h]
  · unfold createCompletionStreamV2
    rw [if_pos h]

/-- Witness for C2 at a concrete opaque credential. -/
theorem opaque_credential_rejected_before_rpc_witness :
    detectTokenType "not-a-jwt" ≠ TokenType.jwt
    ∧ createCompletionV2 "kimi-k2.5" [⟨.str "Hi"⟩] "not-a-jwt"
        (fun _ _ _ _ => ⟨none, "ok"⟩) "id0" 0
      = (.error .unsupportedCredentialType, 0)
    ∧ createCompletionStreamV2 "kimi-k2.5" [⟨.str "Hi"⟩] "not-a-jwt"
        (fun _ _ _ _ => .ok []) = (.error .unsupportedCredentialType, 0) := by
  have h : detectTokenType "not-a-jwt" ≠ TokenType.jwt := by decide
  have hc := opaque_credential_rejected_before_rpc "kimi-k2.5" [⟨.str "Hi"⟩] "not-a-jwt"
    (fun _ _ _ _ => ⟨none, "ok"⟩) (fun _ _ _ _ => .ok []) "id0" 0 h
  exact ⟨h, hc.1, hc.2⟩

/-- C3: `resolveScenario` is a pure function of the model name; `thinking`
is true iff the name contains `thinking`, and the scenario is chosen by
first-match priority `k2.5` → K2, `search` → SEARCH, `research` →
RESEARCH, `k1` → K1, default K2. -/
theorem resolveScenario_priority (model : String) :
    (resolveScenario model).thinking = includes model "thinking"
    ∧ (includes model "k2.5" = true → (resolveScenario model).scenario = "SCENARIO_K2")
    ∧ (includes model "k2.5" = false → includes model "search" = true →
        (resolveScenario model).scenario = "SCENARIO_SEARCH")
    ∧ (includes model "k2.5" = false → includes model "search" = false →
        includes model "research" = true →
        (resolveScenario model).scenario = "SCENARIO_RESEARCH")
    ∧ (includes model "k2.5" = false → includes model "search" = false →
        includes model "research" = false → includes model "k1" = true →
        (resolveScenario model).scenario = "SCENARIO_K1")
    ∧ (includes model "k2.5" = false → includes model "search" = false →
        includes model "research" = false → includes model "k1" = false →
        (resolveScenario model).scenario = "SCENARIO_K2") := by
  refine ⟨?_, ?_, ?_, ?_, ?_, ?_⟩
  · unfold resolveScenario; split_ifs <;> rfl
  · intro h1; unfold resolveScenario; rw [if_pos h1]
  · intro h1 h2; unfold resolveScenario
    rw [if_neg (by simp [h1]), if_pos h2]
  · intro h1 h2 h3; unfold resolveScenario
    rw [if_neg (by simp [h1]), if_neg (by simp [h2]), if_pos h3]
  · intro h1 h2 h3 h4; unfold resolveScenario
    rw [if_neg (by simp [h1]), if_neg (by simp [h2]), if_neg (by simp [h3]), if_pos h4]
  · intro h1 h2 h3 h4; unfold resolveScenario
    rw [if_neg (by simp [h1]), if_neg (by simp [h2]), if_neg (by simp [h3]),
      if_neg (by simp [h4])]

/-- Witness for C3: a model name containing both `k2.5` and `search`
resolves to the K2 scenario with thinking off. -/
theorem resolveScenario_priority_witness :
    (resolveScenario "kimi-k2.5-search").scenario = "SCENARIO_K2"
    ∧ (resolveScenario "kimi-k2.5-search").thinking = false := by
  have h := resolveScenario_priority "kimi-k2.5-search"
  exact ⟨h.2.1 (by decide), h.1.trans (by decide)⟩

/-- C6 counterexample: with `authorization` absent and
`x-goog-api-key: "Bearer xyz"`, the extracted token is `"Bearer xyz"`,
not the claimed api-key value with its own leading `Bearer ` stripped
(which would be `"xyz"`). -/
theorem apiKey_bearer_not_stripped_counterexample :
    extractAuthToken ⟨none, some "Bearer xyz"⟩ = .ok "Bearer xyz"
    ∧ jsTrim (stripBearer "Bearer xyz") = "xyz"
    ∧ ("Bearer xyz" : String) ≠ "xyz" := by
  refine ⟨rfl, rfl, by decide⟩

/-- C6 (amended): with `x-goog-api-key` present (non-empty, not
whitespace-only) and `authorization` absent, the extracted token equals
the api-key value with surrounding whitespace trimmed; the `Bearer` strip
consumes only the synthesized prefix, so a `Bearer ` prefix inside the
api-key value itself is preserved. -/
theorem apiKey_token_trimmed (k : String) (h1 : k ≠ "") (h2 : jsTrim k ≠ "") :
    extractAuthToken ⟨none, some k⟩ = .ok (jsTrim k) := by
  have hth : tokenHeaderOf ⟨none, some k⟩ = some ("Bearer " ++ k) := by
    unfold tokenHeaderOf
    rw [if_neg (by simp [truthy]), if_pos (by simp [truthy, h1])]
    rfl
  unfold extractAuthToken
  rw [hth]
  rw [if_neg (by simp [truthy, bearer_append_ne_empty])]
  simp only [Option.getD]
  rw [stripBearer_bearer_append, if_neg h2]

/-- Witness for C6 at a concrete whitespace-padded key. -/
theorem apiKey_token_trimmed_witness :
    extractAuthToken ⟨none, some " my-key "⟩ = .ok "my-key" := by
  have h := apiKey_token_trimmed " my-key " (by decide) (by decide)
  exact h.trans (by rfl)

/-- C7 counterexample: an empty-string `authorization` header is present,
yet extraction fails with `MissingCredential` (the claim predicts
`MissingCredential` only when neither header is present). -/
theorem empty_auth_header_missing_counterexample :
    extractAuthToken ⟨some "", none⟩ = .error .missingCredential
    ∧ (some "" : Option String) ≠ none := by
  exact ⟨rfl, by decide⟩

/-- C7 (amended): extraction fails with `MissingCredential` exactly when
both headers are absent or empty strings (falsy); it fails with
`InvalidCredentialFormat` exactly when some header is truthy but the
normalized token is empty; otherwise it returns the normalized token.
`extractAuthToken` is a pure function of the headers, so both failures
are decided before any backend interaction. -/
theorem extractAuthToken_characterization (h : Headers) :
    (extractAuthToken h = .error .missingCredential ↔
      truthy h.authorization = false ∧ truthy h.xGoogApiKey = false)
    ∧ (extractAuthToken h = .error .invalidCredentialFormat ↔
      (truthy h.authorization = true ∨ truthy h.xGoogApiKey = true)
        ∧ normalizedToken h = "")
    ∧ (∀ t : String, extractAuthToken h = .ok t ↔
      (truthy h.authorization = true ∨ truthy h.xGoogApiKey = true)
        ∧ normalizedToken h ≠ "" ∧ t = normalizedToken h) := by
  by_cases ha : truthy h.authorization = true
  · have hth : tokenHeaderOf h = h.authorization := by
      unfold tokenHeaderOf; rw [if_pos ha]
    have htt : truthy (tokenHeaderOf h) = true := by rw [hth]; exact ha
    have hnorm : normalizedToken h = jsTrim (stripBearer ((tokenHeaderOf h).getD "")) := by
      unfold normalizedToken effectiveHeader; rw [if_pos ha, hth]
    unfold extractAuthToken
    rw [if_neg (by rw [htt]; simp), ← hnorm]
    by_cases he : normalizedToken h = ""
    · rw [if_pos he]
      exact ⟨by simp [ha], by simp [ha, he], fun t => by simp [ha, he]⟩
    · rw [if_neg he]
      refine ⟨by simp [ha], by simp [ha, he], fun t => ?_⟩
      constructor
      · intro ht
        injection ht with ht
        exact ⟨Or.inl ha, he, ht.symm⟩
      · rintro ⟨-, -, ht⟩
        rw [ht]
  · have ha' : truthy h.authorization = false := by simpa using ha
    by_cases hk : truthy h.xGoogApiKey = true
    · have hth : tokenHeaderOf h = some ("Bearer " ++ h.xGoogApiKey.getD "") := by
        unfold tokenHeaderOf; rw [if_neg (by simp [ha']), if_pos hk]
      have htt : truthy (tokenHeaderOf h) = true := by
        rw [hth]; simp [truthy, bearer_append_ne_empty]
      have hnorm : normalizedToken h = jsTrim (stripBearer ((tokenHeaderOf h).getD "")) := by
        unfold normalizedToken effectiveHeader; rw [if_neg (by simp [ha']), hth]; rfl
      unfold extractAuthToken
      rw [if_neg (by rw [htt]; simp), ← hnorm]
      by_cases he : normalizedToken h = ""
      · rw [if_pos he]
        exact ⟨by simp [ha', hk], by simp [hk, he], fun t => by simp [he]⟩
      · rw [if_neg he]
        refine ⟨by simp [ha', hk], by simp [ha', he], fun t => ?_⟩
        constructor
        · intro ht
          injection ht with ht
          exact ⟨Or.inr hk, he, ht.symm⟩
        · rintro ⟨-, -, ht⟩
          rw [ht]
    · have hk' : truthy h.xGoogApiKey = false := by simpa using hk
      have hth : tokenHeaderOf h = h.authorization := by
        unfold tokenHeaderOf; rw [if_neg (by simp [ha']), if_neg (by simp [hk'])]
      have htt : truthy (tokenHeaderOf h) = false := by rw [hth]; exact ha'
      unfold extractAuthToken
      rw [if_pos htt]
      exact ⟨by simp [ha', hk'], by simp [ha', hk'], fun t => by simp [ha', hk']⟩

/-- Witness for C7: both headers absent give `MissingCredential`. -/
theorem extractAuthToken_characterization_witness :
    extractAuthToken ⟨none, none⟩ = .error .missingCredential := by
  exact (extractAuthToken_characterization ⟨none, none⟩).1.mpr ⟨rfl, rfl⟩

theorem contentFrame_count_stop (m : ConnectMsg) :
    (contentFrame m).count Frame.stopChunk = 0 := by
  rcases m with ⟨c, d⟩
  cases c with
  | none => rfl
  | some s =>
    by_cases hs : s = ""
    · simp [contentFrame, hs]
    · simp [contentFrame, hs, List.count_cons]

theorem contentFrame_count_sentinel (m : ConnectMsg) :
    (contentFrame m).count Frame.doneSentinel = 0 := by
  rcases m with ⟨c, d⟩
  cases c with
  | none => rfl
  | some s =>
    by_cases hs : s = ""
    · simp [contentFrame, hs]
    · simp [contentFrame, hs, List.count_cons]

theorem contentFrame_count_end (m : ConnectMsg) :
    (contentFrame m).count Frame.endOfStream = 0 := by
  rcases m with ⟨c, d⟩
  cases c with
  | none => rfl
  | some s =>
    by_cases hs : s = ""
    · simp [contentFrame, hs]
    · simp [contentFrame, hs, List.count_cons]

theorem contentFrames_count_stop (ms : List ConnectMsg) :
    ((ms.map contentFrame).flatten).count Frame.stopChunk = 0 := by
  induction ms with
  | nil => rfl
  | cons m ms ih => simp [List.count_append, contentFrame_count_stop, ih]

theorem contentFrames_count_sentinel (ms : List ConnectMsg) :
    ((ms.map contentFrame).flatten).count Frame.doneSentinel = 0 := by
  induction ms with
  | nil => rfl
  | cons m ms ih => simp [List.count_append, contentFrame_count_sentinel, ih]

theorem contentFrames_count_end (ms : List ConnectMsg) :
    ((ms.map contentFrame).flatten).count Frame.endOfStream = 0 := by
  induction ms with
  | nil => rfl
  | cons m ms ih => simp [List.count_append, contentFrame_count_end, ih]

theorem processEvents_done_shape (post : List ConnectMsg) (d : ConnectMsg)
    (pre : List ConnectMsg) (hpre : ∀ m ∈ pre, m.done = false) (hd : d.done = true) :
    processEvents (pre ++ d :: post)
      = ((pre.map contentFrame).flatten ++ (contentFrame d
          ++ [Frame.stopChunk, Frame.doneSentinel, Frame.endOfStream]), pre.length + 1) := by
  induction pre with
  | nil =>
    rw [List.nil_append]
    unfold processEvents
    rw [if_pos hd]
    simp
  | cons m pre ih =>
    have hm : m.done = false := hpre m (List.mem_cons_self m pre)
    have ih' := ih fun x hx => hpre x (List.mem_cons_of_mem m hx)
    show processEvents (m :: (pre ++ d :: post)) = _
    unfold processEvents
    rw [if_neg (by simp [hm]), ih']
    simp [List.append_assoc]

theorem processEvents_no_done_shape (events : List ConnectMsg)
    (h : ∀ m ∈ events, m.done = false) :
    processEvents events
      = ((events.map contentFrame).flatten ++ [Frame.endOfStream], events.length) := by
  induction events with
  | nil => rfl
  | cons m events ih =>
    have hm : m.done = false := h m (List.mem_cons_self m events)
    have ih' := ih fun x hx => h x (List.mem_cons_of_mem m hx)
    unfold processEvents
    rw [if_neg (by simp [hm]), ih']
    simp [List.append_assoc]

/-- C4: once an event marked done is received, exactly one terminal chunk
and exactly one sentinel frame are emitted (in that order, before the
stream closes), and no backend event after the done event is consumed:
the result does not depend on the remainder of the sequence. -/
theorem stream_done_terminates (pre post : List ConnectMsg) (d : ConnectMsg)
    (hpre : ∀ m ∈ pre, m.done = false) (hd : d.done = true) :
    processEvents (pre ++ d :: post) = processEvents (pre ++ [d])
    ∧ (processEvents (pre ++ d :: post)).2 = pre.length + 1
    ∧ (processEvents (pre ++ d :: post)).1.count Frame.stopChunk = 1
    ∧ (processEvents (pre ++ d :: post)).1.count Frame.doneSentinel = 1
    ∧ ∃ fs, (processEvents (pre ++ d :: post)).1
        = fs ++ [Frame.stopChunk, Frame.doneSentinel, Frame.endOfStream] := by
  have h1 := processEvents_done_shape post d pre hpre hd
  have h2 := processEvents_done_shape [] d pre hpre hd
  refine ⟨h1.trans h2.symm, ?_, ?_, ?_, ?_⟩
  · rw [h1]
  · rw [h1]
    simp [List.count_append, contentFrames_count_stop, contentFrame_count_stop]
  · rw [h1]
    simp [List.count_append, contentFrames_count_sentinel, contentFrame_count_sentinel]
  · refine ⟨(pre.map contentFrame).flatten ++ contentFrame d, ?_⟩
    rw [h1]
    simp [List.append_assoc]

/-- Witness for C4: a done event in the middle of a longer sequence. -/
theorem stream_done_terminates_witness :
    processEvents [⟨some "a", false⟩, ⟨none, true⟩, ⟨some "z", false⟩]
      = processEvents [⟨some "a", false⟩, ⟨none, true⟩]
    ∧ (processEvents [⟨some "a", false⟩, ⟨none, true⟩, ⟨some "z", false⟩]).2 = 2
    ∧ (processEvents [⟨some "a", false⟩, ⟨none, true⟩, ⟨some "z", false⟩]).1.count
        Frame.stopChunk = 1
    ∧ (processEvents [⟨some "a", false⟩, ⟨none, true⟩, ⟨some "z", false⟩]).1.count
        Frame.doneSentinel = 1 := by
  have h := stream_done_terminates [⟨some "a", false⟩] [⟨some "z", false⟩] ⟨none, true⟩
    (by decide) rfl
  exact ⟨h.1, h.2.1, h.2.2.1, h.2.2.2.1⟩

/-- C10: if the backend event sequence contains no event marked done, every
event is consumed, the stream is closed normally after the last event, and
neither the terminal chunk nor the sentinel frame is ever emitted. -/
theorem stream_without_done_ends_normally (events : List ConnectMsg)
    (h : ∀ m ∈ events, m.done = false) :
    (processEvents events).2 = events.length
    ∧ (processEvents events).1.count Frame.stopChunk = 0
    ∧ (processEvents events).1.count Frame.doneSentinel = 0
    ∧ ∃ fs, (processEvents events).1 = fs ++ [Frame.endOfStream]
        ∧ fs.count Frame.endOfStream = 0 := by
  have h1 := processEvents_no_done_shape events h
  refine ⟨?_, ?_, ?_, ⟨(events.map contentFrame).flatten, ?_, contentFrames_count_end events⟩⟩
  · rw [h1]
  · rw [h1]
    simp [List.count_append, contentFrames_count_stop]
  · rw [h1]
    simp [List.count_append, contentFrames_count_sentinel]
  · rw [h1]

/-- Witness for C10: a done-free sequence of two events. -/
theorem stream_without_done_ends_normally_witness :
    (processEvents [⟨some "a", false⟩, ⟨none, false⟩]).2 = 2
    ∧ (processEvents [⟨some "a", false⟩, ⟨none, false⟩]).1.count Frame.stopChunk = 0
    ∧ (processEvents [⟨some "a", false⟩, ⟨none, false⟩]).1.count Frame.doneSentinel = 0 := by
  have h := stream_without_done_ends_normally [⟨some "a", false⟩, ⟨none, false⟩] (by decide)
  exact ⟨h.1, h.2.1, h.2.2.1⟩

/-- C5: the text extracted from the last message is the string content
verbatim; or the newline-joined texts of the parts tagged `text` (an empty
part list giving `""`); or `""` for any other content shape — and both
entry points depend on the message list only through this extraction. -/
theorem extractLastText_rule :
    (∀ (ms : List Message) (s : String), extractLastText (ms ++ [⟨.str s⟩]) = .ok s)
    ∧ (∀ (ms : List Message) (l : List ContentPart),
        extractLastText (ms ++ [⟨.parts l⟩])
          = .ok (String.intercalate "\n"
              ((l.filter fun p => p.type = some "text").map fun p => p.text.getD "")))
    ∧ (∀ ms : List Message, extractLastText (ms ++ [⟨.parts []⟩]) = .ok "")
    ∧ (∀ ms : List Message, extractLastText (ms ++ [⟨.other⟩]) = .ok "")
    ∧ (∀ (model token freshId : String) (now : Nat)
        (chatText : ConnectConfig → String → String → Bool → ChatTextResult)
        (chat : ConnectConfig → String → String → Bool → Except String (List ConnectMsg))
        (ms₁ ms₂ : List Message), extractLastText ms₁ = extractLastText ms₂ →
          createCompletionV2 model ms₁ token chatText freshId now
            = createCompletionV2 model ms₂ token chatText freshId now
          ∧ createCompletionStreamV2 model ms₁ token chat
            = createCompletionStreamV2 model ms₂ token chat) := by
  refine ⟨?_, ?_, ?_, ?_, ?_⟩
  · intro ms s
    unfold extractLastText
    rw [List.getLast?_concat]
    rfl
  · intro ms l
    unfold extractLastText
    rw [List.getLast?_concat]
    rfl
  · intro ms
    unfold extractLastText
    rw [List.getLast?_concat]
    rfl
  · intro ms
    unfold extractLastText
    rw [List.getLast?_concat]
    rfl
  · intro model token freshId now chatText chat ms₁ ms₂ h12
    constructor
    · simp only [createCompletionV2, h12]
    · simp only [createCompletionStreamV2, h12]

/-- Witness for C5: the three extraction shapes at concrete messages. -/
theorem extractLastText_rule_witness :
    extractLastText [⟨.str "hello"⟩] = .ok "hello"
    ∧ extractLastText
        [⟨.parts [⟨some "text", some "a"⟩, ⟨some "image", none⟩, ⟨some "text", some "b"⟩]⟩]
      = .ok "a\nb"
    ∧ extractLastText [⟨.parts []⟩] = .ok ""
    ∧ extractLastText [⟨.other⟩] = .ok "" := by
  refine ⟨extractLastText_rule.1 [] "hello", ?_, extractLastText_rule.2.2.1 [],
    extractLastText_rule.2.2.2.1 []⟩
  exact (extractLastText_rule.2.1 []
    [⟨some "text", some "a"⟩, ⟨some "image", none⟩, ⟨some "text", some "b"⟩]).trans (by rfl)

/-- C8: on success, the usage triple of `createCompletionV2` is the
character length of the extracted prompt text, the character length of the
backend response text, and their sum. -/
theorem completion_usage_char_lengths (model : String) (ms : List Message) (m : Message)
    (token freshId : String) (now : Nat)
    (chatText : ConnectConfig → String → String → Bool → ChatTextResult)
    (hjwt : detectTokenType token = .jwt) :
    ∃ c : Completion,
      createCompletionV2 model (ms ++ [m]) token chatText freshId now = (.ok c, 1)
      ∧ c.usage.prompt_tokens = (extractMessageText m.content).length
      ∧ c.usage.completion_tokens
          = (chatText (buildConfig token) (extractMessageText m.content)
              (resolveScenario model).scenario (resolveScenario model).thinking).text.length
      ∧ c.usage.total_tokens = c.usage.prompt_tokens + c.usage.completion_tokens := by
  have hl : extractLastText (ms ++ [m]) = .ok (extractMessageText m.content) := by
    unfold extractLastText
    rw [List.getLast?_concat]
  simp only [createCompletionV2, hjwt, ne_eq, not_true_eq_false, if_false, hl]
  exact ⟨_, rfl, rfl, rfl, rfl⟩

/-- Witness for C8: a structured credential and the single user message
`"Hi"` give `usage.prompt_tokens = 2`. -/
theorem completion_usage_char_lengths_witness :
    detectTokenType "eyJhbGciOiJub25lIn0.eyJhcHBfaWQiOiJraW1pIiwidHlwIjoiYWNjZXNzIn0.x"
      = TokenType.jwt
    ∧ ∃ c : Completion,
        createCompletionV2 "kimi-k2.5" [⟨.str "Hi"⟩]
          "eyJhbGciOiJub25lIn0.eyJhcHBfaWQiOiJraW1pIiwidHlwIjoiYWNjZXNzIn0.x"
          (fun _ _ _ _ => ⟨none, "Hello!"⟩) "id0" 0 = (.ok c, 1)
        ∧ c.usage.prompt_tokens = 2 := by
  have hjwt : detectTokenType "eyJhbGciOiJub25lIn0.eyJhcHBfaWQiOiJraW1pIiwidHlwIjoiYWNjZXNzIn0.x"
      = TokenType.jwt := by decide
  obtain ⟨c, hc, hp, -, -⟩ := completion_usage_char_lengths "kimi-k2.5" [] ⟨.str "Hi"⟩
    "eyJhbGciOiJub25lIn0.eyJhcHBfaWQiOiJraW1pIiwidHlwIjoiYWNjZXNzIn0.x" "id0" 0
    (fun _ _ _ _ => ⟨none, "Hello!"⟩) hjwt
  exact ⟨hjwt, c, hc, hp.trans (by rfl)⟩

/-- C9: the three claims extractions are total and isolated: a failed
payload decode yields `undefined` for every field; a decoded object
determines each extraction by its own key alone (so a missing or malformed
field never disturbs the other two); a decoded non-object yields
`undefined` for every field. -/
theorem claims_extraction_isolated (token : String) :
    (jwtMiddlePayload token = none →
      extractDeviceIdFromJWT token = none ∧ extractSessionIdFromJWT token = none
        ∧ extractUserIdFromJWT token = none)
    ∧ (∀ fs, jwtMiddlePayload token = some (.obj fs) →
      extractDeviceIdFromJWT token = lookupLast fs ("device_id".data)
        ∧ extractSessionIdFromJWT token = lookupLast fs ("ssid".data)
        ∧ extractUserIdFromJWT token = lookupLast fs ("sub".data))
    ∧ (∀ j, jwtMiddlePayload token = some j → (∀ fs, j ≠ .obj fs) →
      extractDeviceIdFromJWT token = none ∧ extractSessionIdFromJWT token = none
        ∧ extractUserIdFromJWT token = none) := by
  refine ⟨fun h => ?_, fun fs h => ?_, fun j h hno => ?_⟩
  · unfold extractDeviceIdFromJWT extractSessionIdFromJWT extractUserIdFromJWT
    rw [h]
    exact ⟨rfl, rfl, rfl⟩
  · unfold extractDeviceIdFromJWT extractSessionIdFromJWT extractUserIdFromJWT
    rw [h]
    exact ⟨rfl, rfl, rfl⟩
  · unfold extractDeviceIdFromJWT extractSessionIdFromJWT extractUserIdFromJWT
    rw [h]
    cases j with
    | null => exact ⟨rfl, rfl, rfl⟩
    | bool b => exact ⟨rfl, rfl, rfl⟩
    | num raw => exact ⟨rfl, rfl, rfl⟩
    | str s => exact ⟨rfl, rfl, rfl⟩
    | arr elems => exact ⟨rfl, rfl, rfl⟩
    | obj fs => exact absurd rfl (hno fs)

/-- Witness for C9: a payload carrying `ssid` and `sub` but no `device_id`
gives `undefined` for the device only. -/
theorem claims_extraction_isolated_witness :
    extractDeviceIdFromJWT "eyJhbGciOiJub25lIn0.eyJzc2lkIjoiczEiLCJzdWIiOiJ1MSJ9.x" = none
    ∧ extractSessionIdFromJWT "eyJhbGciOiJub25lIn0.eyJzc2lkIjoiczEiLCJzdWIiOiJ1MSJ9.x"
      = some (.str "s1".data)
    ∧ extractUserIdFromJWT "eyJhbGciOiJub25lIn0.eyJzc2lkIjoiczEiLCJzdWIiOiJ1MSJ9.x"
      = some (.str "u1".data) := by
  have h := (claims_extraction_isolated
    "eyJhbGciOiJub25lIn0.eyJzc2lkIjoiczEiLCJzdWIiOiJ1MSJ9.x").2.1
    [("ssid".data, .str "s1".data), ("sub".data, .str "u1".data)] (by rfl)
  exact ⟨h.1.trans (by rfl), h.2.1.trans (by rfl), h.2.2.trans (by rfl)⟩

/-- C1 counterexample: a credential with three dot-separated segments whose
middle segment decodes to `{"app_id":"kimi","typ":"access"}` but whose
first segment does not start with the `eyJ` marker classifies as opaque,
contradicting the claim as stated. -/
theorem classifier_marker_counterexample :
    claimStructuredB "AAAA.eyJhcHBfaWQiOiJraW1pIiwidHlwIjoiYWNjZXNzIn0.x" = true
    ∧ detectTokenType "AAAA.eyJhcHBfaWQiOiJraW1pIiwidHlwIjoiYWNjZXNzIn0.x"
        ≠ TokenType.jwt := by
  exact ⟨by decide, by decide⟩

/-- C1 (amended): classification never raises (it is total, always `jwt` or
`refresh`), and a credential classifies as structured (`jwt`) exactly when
it starts with the marker `eyJ` AND satisfies the claim's condition (three
dot-separated segments whose middle segment base64-decodes to a JSON
object with `app_id = "kimi"` and `typ = "access"`). -/
theorem detectTokenType_characterization (token : String) :
    (detectTokenType token = .jwt ↔
      (startsWithEyJ token.data = true ∧ claimStructuredB token = true))
    ∧ (detectTokenType token = .jwt ∨ detectTokenType token = .refresh) := by
  refine ⟨?_, ?_⟩
  case refine_2 =>
    cases h : detectTokenType token
    · exact Or.inl rfl
    · exact Or.inr rfl
  by_cases hs : startsWithEyJ token.data = true
  · by_cases hl : (splitOnDot token.data).length = 3
    · unfold detectTokenType claimStructuredB
      rw [if_pos ⟨hs, hl⟩]
      cases hmid : (splitOnDot token.data)[1]? with
      | none => simp [hmid, hs, hl]
      | some mid =>
        cases hdec : decodeSegmentJson mid with
        | none => simp [hmid, hdec, hs, hl]
        | some payload =>
          cases payload with
          | obj fs =>
            by_cases h1 : isStrVal (lookupLast fs ("app_id".data)) ("kimi".data) = true
            · by_cases h2 : isStrVal (lookupLast fs ("typ".data)) ("access".data) = true
              · simp [hmid, hdec, jsGetField, h1, h2, hs, hl]
              · simp [hmid, hdec, jsGetField, h1, h2, hs, hl]
            · simp [hmid, hdec, jsGetField, h1, hs, hl]
          | null => simp [hmid, hdec, jsGetField, hs, hl]
          | bool b => simp [hmid, hdec, jsGetField, isStrVal, hs, hl]
          | num raw => simp [hmid, hdec, jsGetField, isStrVal, hs, hl]
          | str s => simp [hmid, hdec, jsGetField, isStrVal, hs, hl]
          | arr elems => simp [hmid, hdec, jsGetField, isStrVal, hs, hl]
    · unfold detectTokenType claimStructuredB
      rw [if_neg (by intro hc; exact hl hc.2)]
      simp [hl]
  · unfold detectTokenType claimStructuredB
    rw [if_neg (by intro hc; exact hs hc.1)]
    simp [hs]

end ChatV2
